import Mathlib

/-!
Shallow embedding of the `no_denormals` crate (src/lib.rs).

The crate temporarily disables floating-point denormals by OR-ing a mask
into the per-thread floating-point control register (MXCSR on x86/x86_64,
FPCR on aarch64) and restoring the saved value when a RAII guard is dropped.

The machine state is modelled as the control register value (a `Nat`,
the register is 32-bit on x86 and 64-bit on aarch64) together with an
arbitrary memory component `M` that the wrapped computation may use, and a
ghost trace of register accesses used to state "read/write exactly once"
properties.  A wrapped computation is a state transformer
`State M → T × State M`; a computation that may panic returns
`Except E T` instead of `T`, and Rust's unwinding semantics (destructors
run on the unwind path) is made explicit in `no_denormals_unwind`.
-/

namespace NoDenormals

/-- src/lib.rs line 29: `const X86_MASK: u32 = 0x8040;` (FTZ and DAZ). -/
def X86_MASK : Nat := 0x8040

/-- src/lib.rs line 33: `const AARCH64_MASK: u64 = 1 << 24;` (FTZ). -/
def AARCH64_MASK : Nat := 1 <<< 24

/-- Ghost event recording one access to the control register. -/
inductive CsrEvent where
  | read (v : Nat)
  | write (v : Nat)
deriving DecidableEq, Repr

/-- Machine state on x86/x86_64: the MXCSR register, the computation's
memory `M`, and a ghost trace of register accesses (newest last). -/
structure X86State (M : Type) where
  mxcsr : Nat
  mem : M
  trace : List CsrEvent

/-- src/lib.rs lines 54-63: `fn get_csr() -> u32` reads MXCSR via `stmxcsr`.
Returns the current register value; the ghost trace records the read. -/
def get_csr {M : Type} (s : X86State M) : Nat × X86State M :=
  (s.mxcsr, { s with trace := s.trace ++ [CsrEvent.read s.mxcsr] })

/-- src/lib.rs lines 48-52: `fn set_csr(control: u32)` writes MXCSR via
`ldmxcsr`.  Sets the register to exactly the given value. -/
def set_csr {M : Type} (v : Nat) (s : X86State M) : X86State M :=
  { s with mxcsr := v, trace := s.trace ++ [CsrEvent.write v] }

/-- src/lib.rs lines 35-46: `struct DenormalGuard { mxcsr: u32, ... }`
(x86/x86_64 variant).  The `PhantomData<*const ()>` marker field is
zero-sized; its Send/Sync effect is modelled separately below. -/
structure DenormalGuard where
  mxcsr : Nat

/-- src/lib.rs lines 66-79 (x86/x86_64 with sse):
`let mxcsr = get_csr(); set_csr(mxcsr | X86_MASK); DenormalGuard { mxcsr, .. }`. -/
def DenormalGuard.new {M : Type} (s : X86State M) : DenormalGuard × X86State M :=
  let r := get_csr s
  (⟨r.1⟩, set_csr (r.1 ||| X86_MASK) r.2)

/-- src/lib.rs lines 94-102: `impl Drop for DenormalGuard`
(x86/x86_64 branch): `set_csr(self.mxcsr)`. -/
def DenormalGuard.drop {M : Type} (g : DenormalGuard) (s : X86State M) : X86State M :=
  set_csr g.mxcsr s

/-- src/lib.rs lines 113-119:
`pub fn no_denormals<T, F: FnOnce() -> T>(func: F) -> T` —
`let guard = DenormalGuard::new(); let ret = func(); std::mem::drop(guard); ret`. -/
def no_denormals {M T : Type} (func : X86State M → T × X86State M) (s : X86State M) :
    T × X86State M :=
  let gs := DenormalGuard.new s
  let rs := func gs.2
  (rs.1, gs.1.drop rs.2)

/-- src/lib.rs lines 113-119 under Rust unwinding semantics: if `func`
panics (modelled as `Except.error`), the guard's destructor still runs
while the panic unwinds, and the panic continues to propagate; on normal
return `std::mem::drop(guard)` runs and the value is returned. -/
def no_denormals_unwind {M E T : Type} (func : X86State M → Except E T × X86State M)
    (s : X86State M) : Except E T × X86State M :=
  let gs := DenormalGuard.new s
  let rs := func gs.2
  (rs.1, gs.1.drop rs.2)

/-- Machine state on aarch64: the FPCR register, memory, ghost trace. -/
structure AArch64State (M : Type) where
  fpcr : Nat
  mem : M
  trace : List CsrEvent

/-- src/lib.rs line 83: `asm!("mrs {}, fpcr", ...)` — read FPCR. -/
def read_fpcr {M : Type} (s : AArch64State M) : Nat × AArch64State M :=
  (s.fpcr, { s with trace := s.trace ++ [CsrEvent.read s.fpcr] })

/-- src/lib.rs lines 84, 106: `asm!("msr fpcr, {}", ...)` — write FPCR. -/
def write_fpcr {M : Type} (v : Nat) (s : AArch64State M) : AArch64State M :=
  { s with fpcr := v, trace := s.trace ++ [CsrEvent.write v] }

/-- src/lib.rs lines 35-46: aarch64 variant of the guard, `fpcr: u64`. -/
structure DenormalGuardA where
  fpcr : Nat

/-- src/lib.rs lines 80-90 (aarch64 branch of `DenormalGuard::new`):
read FPCR, write back `fpcr | AARCH64_MASK`, save the snapshot. -/
def DenormalGuardA.new {M : Type} (s : AArch64State M) : DenormalGuardA × AArch64State M :=
  let r := read_fpcr s
  (⟨r.1⟩, write_fpcr (r.1 ||| AARCH64_MASK) r.2)

/-- src/lib.rs lines 104-107 (aarch64 branch of `Drop`): write back the
saved FPCR value verbatim. -/
def DenormalGuardA.drop {M : Type} (g : DenormalGuardA) (s : AArch64State M) : AArch64State M :=
  write_fpcr g.fpcr s

/-- `no_denormals` as compiled for aarch64. -/
def no_denormals_aarch64 {M T : Type} (func : AArch64State M → T × AArch64State M)
    (s : AArch64State M) : T × AArch64State M :=
  let gs := DenormalGuardA.new s
  let rs := func gs.2
  (rs.1, gs.1.drop rs.2)

/-! Floating-point model for the test scenario (src/lib.rs lines 121-167).

Modelled from the spec: the effect of the MXCSR denormal-control bits on a
single `f32` multiplication is hardware semantics, not code of this
repository.  Following the spec's glossary — flush-to-zero (MXCSR bit 15)
rounds operation *results* that would be subnormal to zero, and
denormals-are-zero (MXCSR bit 6) treats subnormal *input operands* as zero
— `f32` values are represented exactly as integer multiples of `2^-149`,
the smallest positive subnormal `f32`.  Every value arising in the
scenario (`f32::MIN_POSITIVE = 2^-126 = 2^23 · 2^-149` and its half
`2^-127 = 2^22 · 2^-149`) is exactly representable and the multiplication
by `0.5` is exact (the scaled integer is even), so no rounding model is
needed. -/

/-- The `f32` classification categories relevant to the tests
(`std::num::FpCategory`). -/
inductive FpCat where
  | zero
  | subnormal
  | normal
  | infinite
deriving DecidableEq, Repr

/-- Smallest positive normal `f32`, `f32::MIN_POSITIVE = 2^-126`
(src/lib.rs lines 137, 154), in units of `2^-149`. -/
def f32MinPositive : Int := 2 ^ 23

/-- The `f32` overflow threshold `2^128`, in units of `2^-149`. -/
def f32MaxBound : Int := 2 ^ 277

/-- `f32::classify` on exactly-representable finite values (in units of
`2^-149`): zero, subnormal (nonzero, below the normal threshold
`2^-126`), normal, or infinite (at or beyond `2^128`). -/
def classify (x : Int) : FpCat :=
  if x = 0 then FpCat.zero
  else if x.natAbs < f32MinPositive.natAbs then FpCat.subnormal
  else if x.natAbs < f32MaxBound.natAbs then FpCat.normal
  else FpCat.infinite

/-- Denormals-are-zero: with MXCSR bit 6 set, a subnormal input operand is
treated as zero before the operation. -/
def daz (m : Nat) (x : Int) : Int :=
  if m.testBit 6 = true ∧ x ≠ 0 ∧ x.natAbs < f32MinPositive.natAbs then 0 else x

/-- Flush-to-zero: with MXCSR bit 15 set, a result that would be subnormal
is flushed to zero. -/
def ftz (m : Nat) (x : Int) : Int :=
  if m.testBit 15 = true ∧ x ≠ 0 ∧ x.natAbs < f32MinPositive.natAbs then 0 else x

/-- src/lib.rs lines 126-128: `fn half(x: f32) -> f32 { black_box(x) * 0.5 }`,
executed while MXCSR holds `m`: DAZ applies to the input, the product with
`0.5` is exact here (the scaled integer is even, so `x / 2` is exact), and
FTZ applies to the result. -/
def half (m : Nat) (x : Int) : Int := ftz m (daz m x / 2)

/-! Build-time architecture gating (src/lib.rs lines 24-25, 36-39, 67-70,
80, 96-98, 104).  The `cfg` conditions are evaluated once per build
target, so the selection is a pure function of the target. -/

/-- Target architecture family, as tested by `cfg(target_arch = ...)`.
`other` stands for any architecture outside the supported set. -/
inductive TargetArch where
  | x86
  | x86_64
  | aarch64
  | other
deriving DecidableEq, Repr

/-- A build target: the architecture family and whether
`target_feature = "sse"` is enabled (tested by the `cfg` on
src/lib.rs lines 67-70 and 96-98). -/
structure Target where
  arch : TargetArch
  sse : Bool
deriving DecidableEq, Repr

/-- The two register-accessor implementations in the source: the MXCSR
accessor (`get_csr`/`set_csr`, x86/x86_64) and the FPCR accessor
(`mrs`/`msr fpcr`, aarch64). -/
inductive AccessorImpl where
  | mxcsrAccessor
  | fpcrAccessor
deriving DecidableEq, Repr

/-- How a build can fail. -/
inductive BuildError where
  /-- src/lib.rs lines 24-25: `compile_error!("This crate only supports
  x86, x86_64 and aarch64.")`, emitted when
  `cfg(not(any(x86, x86_64, aarch64)))` holds. -/
  | unsupportedArchitecture
  /-- Neither `cfg` block inside `DenormalGuard::new` (src/lib.rs lines
  67-70 and 80) is compiled in, so the function body is empty and the
  crate fails to type-check (`new` must return `Self`). -/
  | noGuardBody
deriving DecidableEq, Repr

/-- src/lib.rs lines 24-25: the architecture gate of `compile_error!`. -/
def archSupported (t : Target) : Bool :=
  match t.arch with
  | TargetArch.x86 => true
  | TargetArch.x86_64 => true
  | TargetArch.aarch64 => true
  | TargetArch.other => false

/-- The guard-body blocks compiled in for a target, per the `cfg`
attributes inside `DenormalGuard::new` (src/lib.rs lines 67-70: x86 or
x86_64 with sse → MXCSR block; line 80: aarch64 → FPCR block). -/
def guardImpls (t : Target) : List AccessorImpl :=
  (if (t.arch = TargetArch.x86 ∨ t.arch = TargetArch.x86_64) ∧ t.sse = true then
    [AccessorImpl.mxcsrAccessor]
  else []) ++
  (if t.arch = TargetArch.aarch64 then [AccessorImpl.fpcrAccessor] else [])

/-- Outcome of compiling the crate for a target: the `compile_error!`
gate fires for unsupported architectures; otherwise the build succeeds
exactly when `DenormalGuard::new` has a (unique) compiled-in body. -/
def buildCrate (t : Target) : Except BuildError AccessorImpl :=
  if archSupported t = false then Except.error BuildError.unsupportedArchitecture
  else
    match guardImpls t with
    | [impl] => Except.ok impl
    | _ => Except.error BuildError.noGuardBody

/-! Send/Sync model for the guard (src/lib.rs lines 35-46).

Rust auto-trait semantics: a struct is `Send`/`Sync` iff all its fields
are; raw pointers (`*const ()`) are neither `Send` nor `Sync`;
`PhantomData<T>` is `Send`/`Sync` iff `T` is; the primitive integers are
both.  The guard's `_not_send_sync: PhantomData<*const ()>` field is the
marker that suppresses both auto traits. -/

/-- The field types occurring in `DenormalGuard`: `u32` (`mxcsr`), `u64`
(`fpcr`), and the marker `PhantomData<*const ()>` (`_not_send_sync`). -/
inductive FieldType where
  | u32
  | u64
  | phantomConstPtrUnit
deriving DecidableEq, Repr

/-- Whether a field type is `Send` under Rust's auto-trait rules. -/
def fieldIsSend : FieldType → Bool
  | FieldType.u32 => true
  | FieldType.u64 => true
  | FieldType.phantomConstPtrUnit => false

/-- Whether a field type is `Sync` under Rust's auto-trait rules. -/
def fieldIsSync : FieldType → Bool
  | FieldType.u32 => true
  | FieldType.u64 => true
  | FieldType.phantomConstPtrUnit => false

/-- A struct derives `Send` iff every field is `Send`. -/
def structIsSend (fields : List FieldType) : Bool := fields.all fieldIsSend

/-- A struct derives `Sync` iff every field is `Sync`. -/
def structIsSync (fields : List FieldType) : Bool := fields.all fieldIsSync

/-- Fields of `DenormalGuard` as compiled on x86/x86_64
(src/lib.rs lines 36-37, 45). -/
def denormalGuardFieldsX86 : List FieldType :=
  [FieldType.u32, FieldType.phantomConstPtrUnit]

/-- Fields of `DenormalGuard` as compiled on aarch64
(src/lib.rs lines 38-39, 45). -/
def denormalGuardFieldsAArch64 : List FieldType :=
  [FieldType.u64, FieldType.phantomConstPtrUnit]

/-! Item visibility (src/lib.rs).  Every item of the crate with its
Rust visibility; only `no_denormals` (line 113) is declared `pub`. -/

/-- The items declared by the crate (src/lib.rs). -/
inductive CrateItem where
  | x86MaskConst
  | aarch64MaskConst
  | denormalGuardStruct
  | setCsrFn
  | getCsrFn
  | denormalGuardNewFn
  | denormalGuardDropImpl
  | noDenormalsFn
deriving DecidableEq, Repr

/-- All items of the crate, in source order. -/
def crateItems : List CrateItem :=
  [CrateItem.x86MaskConst, CrateItem.aarch64MaskConst,
   CrateItem.denormalGuardStruct, CrateItem.setCsrFn, CrateItem.getCsrFn,
   CrateItem.denormalGuardNewFn, CrateItem.denormalGuardDropImpl,
   CrateItem.noDenormalsFn]

/-- Rust visibility of each item: only `pub fn no_denormals`
(src/lib.rs line 113) is public; everything else is crate-private. -/
def isPublicItem : CrateItem → Bool
  | CrateItem.noDenormalsFn => true
  | _ => false

/-- The crate's public surface. -/
def publicSurface : List CrateItem := crateItems.filter isPublicItem

/-- Helper: the x86 scope restores the register for every computation. -/
theorem no_denormals_restores {M T : Type} (func : X86State M → T × X86State M)
    (s : X86State M) : ((no_denormals func s).2).mxcsr = s.mxcsr := rfl

/-- Helper: the aarch64 scope restores the register for every computation. -/
theorem no_denormals_aarch64_restores {M T : Type}
    (func : AArch64State M → T × AArch64State M) (s : AArch64State M) :
    ((no_denormals_aarch64 func s).2).fpcr = s.fpcr := rfl

/-- Helper: with both denormal-control bits clear, `half` is the exact
product with `0.5`. -/
theorem half_bits_off (m : Nat) (x : Int) (h15 : m.testBit 15 = false)
    (h6 : m.testBit 6 = false) : half m x = x / 2 := by
  simp [half, daz, ftz, h15, h6]

/-- Helper: with FTZ set, a normal input whose exact half is subnormal is
flushed to zero. -/
theorem half_ftz_on (m : Nat) (x : Int) (h15 : m.testBit 15 = true)
    (hin : ¬ x.natAbs < f32MinPositive.natAbs) (hne : x / 2 ≠ 0)
    (hsub : (x / 2).natAbs < f32MinPositive.natAbs) : half m x = 0 := by
  have hdaz : daz m x = x := by simp [daz, hin]
  simp [half, hdaz, ftz, h15, hne, hsub]

/-- C1: for every wrapped computation and every initial control-register
value, the register immediately after `no_denormals` returns is bit-for-bit
identical to its value immediately before the call (equality on `Nat` is
bit-for-bit equality), on both x86/x86_64 (MXCSR) and aarch64 (FPCR): the
guard restores the saved snapshot verbatim and never clobbers unrelated
control bits. -/
theorem C1_register_restored_bit_for_bit :
    (∀ (M T : Type) (func : X86State M → T × X86State M) (s : X86State M),
      ((no_denormals func s).2).mxcsr = s.mxcsr) ∧
    (∀ (M T : Type) (func : AArch64State M → T × AArch64State M) (s : AArch64State M),
      ((no_denormals_aarch64 func s).2).fpcr = s.fpcr) :=
  ⟨fun _ _ func s => no_denormals_restores func s,
   fun _ _ func s => no_denormals_aarch64_restores func s⟩

/-- C2: if the wrapped computation panics (modelled as `Except.error`),
`no_denormals` still restores the control register to its pre-scope value
— the guard's destructor runs on the unwind path, not only after a normal
return — and the panic is propagated onward unaltered, never suppressed,
wrapped, or replaced (the returned outcome is exactly the computation's
outcome, on the error path as on the success path). -/
theorem C2_unwind_restores_and_propagates :
    ∀ (M E T : Type) (func : X86State M → Except E T × X86State M) (s : X86State M),
      ((no_denormals_unwind func s).2).mxcsr = s.mxcsr ∧
      (no_denormals_unwind func s).1 = (func ((DenormalGuard.new s).2)).1 ∧
      (∀ e : E, (func ((DenormalGuard.new s).2)).1 = Except.error e →
        (no_denormals_unwind func s).1 = Except.error e) :=
  fun _ _ _ _ _ => ⟨rfl, rfl, fun _ he => he⟩

/-- C2 witness: a computation that panics (and even clobbers the register
first) still leaves the register restored, and the panic value comes
through unchanged. -/
theorem C2_witness :
    ((no_denormals_unwind
        (fun st : X86State Unit => ((Except.error "boom" : Except String Unit), set_csr 0 st))
        ⟨0x1F80, (), []⟩).2).mxcsr = 0x1F80 ∧
    (no_denormals_unwind
        (fun st : X86State Unit => ((Except.error "boom" : Except String Unit), set_csr 0 st))
        ⟨0x1F80, (), []⟩).1 = Except.error "boom" :=
  ⟨(C2_unwind_restores_and_propagates Unit String Unit
      (fun st => (Except.error "boom", set_csr 0 st)) ⟨0x1F80, (), []⟩).1,
   (C2_unwind_restores_and_propagates Unit String Unit
      (fun st => (Except.error "boom", set_csr 0 st)) ⟨0x1F80, (), []⟩).2.2 "boom" rfl⟩

/-- C3: on entry the guard reads the current register value `v` exactly
once into an immutable snapshot, then writes back exactly `v ||| mask` —
the ghost trace of `DenormalGuard.new` is exactly one read of `v` followed
by one write of `v ||| X86_MASK`, the saved snapshot is `v`, memory is
untouched — and the wrapped computation executes in exactly the
post-entry (Active) state, whose register holds `v ||| X86_MASK`. -/
theorem C3_entry_reads_once_then_writes_mask :
    ∀ (M T : Type) (func : X86State M → T × X86State M) (s : X86State M),
      ((DenormalGuard.new s).1).mxcsr = s.mxcsr ∧
      ((DenormalGuard.new s).2).mxcsr = s.mxcsr ||| X86_MASK ∧
      ((DenormalGuard.new s).2).trace
        = s.trace ++ [CsrEvent.read s.mxcsr, CsrEvent.write (s.mxcsr ||| X86_MASK)] ∧
      ((DenormalGuard.new s).2).mem = s.mem ∧
      (no_denormals func s).1 = (func ((DenormalGuard.new s).2)).1 := by
  intro M T func s
  refine ⟨rfl, rfl, ?_, rfl, rfl⟩
  simp [DenormalGuard.new, get_csr, set_csr]

/-- C4: scopes compose like a stack. With an inner scope run entirely
inside an outer one, the register observed right after the inner scope
exits equals the outer scope's denormals-disabled value `v ||| X86_MASK`
(not the pre-outer value); when the outer scope exits the register equals
its pre-outer value; sequential scopes each restore independently; and a
completed inner scope is a no-op with respect to the final restored
value. -/
theorem C4_scopes_nest_like_a_stack :
    ∀ (M T : Type) (f : X86State M → T × X86State M) (s : X86State M),
      ((no_denormals
          (fun st => (((no_denormals f st).2.mxcsr, (no_denormals f st).1),
                      (no_denormals f st).2)) s).1).1 = s.mxcsr ||| X86_MASK ∧
      ((no_denormals (fun st => no_denormals f st) s).2).mxcsr = s.mxcsr ∧
      ((no_denormals f s).2).mxcsr = s.mxcsr ∧
      (∀ g : X86State M → T × X86State M,
        ((no_denormals g ((no_denormals f s).2)).2).mxcsr = s.mxcsr) :=
  fun _ _ _ _ => ⟨rfl, rfl, rfl, fun _ => rfl⟩

/-- C5: the x86 disable-mask is exactly the OR of the MXCSR flush-to-zero
bit `0x8000` and the denormals-are-zero bit `0x0040`, i.e. `0x8040`, with
no other bits set in the 32-bit register (in particular none of the
exception-mask bits 7–12, `0x1F80`); the aarch64 mask is exactly the FPCR
flush-to-zero bit `1 <<< 24` and no other bit in the 64-bit register. -/
theorem C5_masks_are_exactly_the_denormal_bits :
    X86_MASK = 0x8000 ||| 0x0040 ∧
    X86_MASK = 0x8040 ∧
    ((List.range 32).all fun i => X86_MASK.testBit i == decide (i = 6 ∨ i = 15)) = true ∧
    X86_MASK &&& 0x1F80 = 0 ∧
    AARCH64_MASK = 1 <<< 24 ∧
    ((List.range 64).all fun i => AARCH64_MASK.testBit i == decide (i = 24)) = true := by
  refine ⟨rfl, rfl, by decide, by decide, rfl, by decide⟩

/-- C6: `no_denormals` returns the wrapped computation's result unchanged
(the result is exactly the value the computation produced in the Active
state), and invokes the computation exactly once: instantiating the
memory component with a call counter that every invocation increments by
one, the counter after `no_denormals` is the counter before plus one. -/
theorem C6_invokes_once_and_returns_result :
    (∀ (M T : Type) (func : X86State M → T × X86State M) (s : X86State M),
      (no_denormals func s).1 = (func ((DenormalGuard.new s).2)).1) ∧
    (∀ (T : Type) (func : X86State Nat → T × X86State Nat),
      (∀ st, ((func st).2).mem = st.mem + 1) →
      ∀ s : X86State Nat, ((no_denormals func s).2).mem = s.mem + 1) := by
  refine ⟨fun _ _ _ _ => rfl, fun T func hf s => ?_⟩
  have h1 : ((no_denormals func s).2).mem = ((func ((DenormalGuard.new s).2)).2).mem := rfl
  rw [h1, hf ((DenormalGuard.new s).2)]
  rfl

/-- C6 witness: a concrete counting computation is invoked exactly once
by `no_denormals`. -/
theorem C6_witness :
    ((no_denormals (fun st : X86State Nat => ((), { st with mem := st.mem + 1 }))
        ⟨0x1F80, 0, []⟩).2).mem = 0 + 1 :=
  C6_invokes_once_and_returns_result.2 Unit
    (fun st => ((), { st with mem := st.mem + 1 })) (fun _ => rfl) ⟨0x1F80, 0, []⟩

/-- C7: with the denormal-control bits initially clear,
`f32::MIN_POSITIVE * 0.5` classifies as Subnormal outside any scope,
as Zero when computed inside `no_denormals` (where MXCSR holds
`v ||| X86_MASK`), and as Subnormal again immediately after the scope
exits; the same pattern holds for `-f32::MIN_POSITIVE`. -/
theorem C7_min_positive_half_flush_scenario :
    ∀ (M : Type) (s : X86State M),
      s.mxcsr.testBit 15 = false → s.mxcsr.testBit 6 = false →
      (classify (half s.mxcsr f32MinPositive) = FpCat.subnormal ∧
       (no_denormals (fun st => (classify (half st.mxcsr f32MinPositive), st)) s).1
         = FpCat.zero ∧
       classify (half
         ((no_denormals (fun st => (classify (half st.mxcsr f32MinPositive), st)) s).2).mxcsr
         f32MinPositive) = FpCat.subnormal) ∧
      (classify (half s.mxcsr (-f32MinPositive)) = FpCat.subnormal ∧
       (no_denormals (fun st => (classify (half st.mxcsr (-f32MinPositive)), st)) s).1
         = FpCat.zero ∧
       classify (half
         ((no_denormals (fun st => (classify (half st.mxcsr (-f32MinPositive)), st)) s).2).mxcsr
         (-f32MinPositive)) = FpCat.subnormal) := by
  intro M s h15 h6
  have hm15 : (s.mxcsr ||| X86_MASK).testBit 15 = true := by
    rw [Nat.testBit_lor, h15]
    decide
  constructor
  · refine ⟨?_, ?_, ?_⟩
    · rw [half_bits_off _ _ h15 h6]
      decide
    · show classify (half (s.mxcsr ||| X86_MASK) f32MinPositive) = FpCat.zero
      rw [half_ftz_on _ _ hm15 (by decide) (by decide) (by decide)]
      decide
    · rw [no_denormals_restores, half_bits_off _ _ h15 h6]
      decide
  · refine ⟨?_, ?_, ?_⟩
    · rw [half_bits_off _ _ h15 h6]
      decide
    · show classify (half (s.mxcsr ||| X86_MASK) (-f32MinPositive)) = FpCat.zero
      rw [half_ftz_on _ _ hm15 (by decide) (by decide) (by decide)]
      decide
    · rw [no_denormals_restores, half_bits_off _ _ h15 h6]
      decide

/-- C7 witness: at the power-on-default MXCSR value `0x1F80` (all
exception-mask bits set, FTZ and DAZ clear), the half of
`f32::MIN_POSITIVE` is Subnormal outside the scope and Zero inside it. -/
theorem C7_witness :
    (0x1F80 : Nat).testBit 15 = false ∧ (0x1F80 : Nat).testBit 6 = false ∧
    classify (half 0x1F80 f32MinPositive) = FpCat.subnormal ∧
    (no_denormals (fun st : X86State Unit => (classify (half st.mxcsr f32MinPositive), st))
        (⟨0x1F80, (), []⟩ : X86State Unit)).1 = FpCat.zero :=
  ⟨by decide, by decide,
   ((C7_min_positive_half_flush_scenario Unit ⟨0x1F80, (), []⟩ (by decide) (by decide)).1).1,
   ((C7_min_positive_half_flush_scenario Unit ⟨0x1F80, (), []⟩ (by decide) (by decide)).1).2.1⟩

/-- C8 counterexample: the target with architecture family `x86` but
without the `sse` target feature (e.g. `i586-unknown-linux-gnu`) is in
the supported architecture set — the `compile_error!` gate does not fire
— yet the build fails, because neither `cfg` block inside
`DenormalGuard::new` (src/lib.rs lines 67-70, 80) is compiled in and the
function is left without a body.  So it is not the case that the build
succeeds for every architecture in the supported set. -/
theorem C8_counterexample :
    archSupported ⟨TargetArch.x86, false⟩ = true ∧
    buildCrate ⟨TargetArch.x86, false⟩ = Except.error BuildError.noGuardBody :=
  ⟨rfl, rfl⟩

/-- C8 (amended): compiling for an architecture family outside
{x86, x86_64, aarch64} fails at build time with the `compile_error!`
diagnostic; for each architecture in the supported set — provided the
required instruction-set extension is enabled (`sse` on x86/x86_64) —
the build succeeds with exactly one register-accessor implementation
compiled in, selected statically by the target. -/
theorem C8_build_gate_static_dispatch :
    ∀ t : Target,
      (archSupported t = false →
        buildCrate t = Except.error BuildError.unsupportedArchitecture) ∧
      (archSupported t = true →
        ((t.arch = TargetArch.x86 ∨ t.arch = TargetArch.x86_64) → t.sse = true) →
        ∃ impl : AccessorImpl,
          buildCrate t = Except.ok impl ∧ guardImpls t = [impl]) := by
  intro t
  obtain ⟨a, sse⟩ := t
  constructor
  · intro h1
    cases a with
    | x86 => exact absurd h1 (by simp [archSupported])
    | x86_64 => exact absurd h1 (by simp [archSupported])
    | aarch64 => exact absurd h1 (by simp [archSupported])
    | other => rfl
  · intro h1 h2
    cases a with
    | x86 =>
        cases sse with
        | true => exact ⟨AccessorImpl.mxcsrAccessor, rfl, rfl⟩
        | false => exact absurd (h2 (Or.inl rfl)) (by decide)
    | x86_64 =>
        cases sse with
        | true => exact ⟨AccessorImpl.mxcsrAccessor, rfl, rfl⟩
        | false => exact absurd (h2 (Or.inr rfl)) (by decide)
    | aarch64 => exact ⟨AccessorImpl.fpcrAccessor, rfl, rfl⟩
    | other => exact absurd h1 (by simp [archSupported])

/-- C8 witness: an unsupported target is rejected with the
`compile_error!` diagnostic, and the supported aarch64 target builds with
exactly the FPCR accessor. -/
theorem C8_witness :
    buildCrate ⟨TargetArch.other, false⟩
      = Except.error BuildError.unsupportedArchitecture ∧
    buildCrate ⟨TargetArch.aarch64, true⟩ = Except.ok AccessorImpl.fpcrAccessor := by
  refine ⟨(C8_build_gate_static_dispatch ⟨TargetArch.other, false⟩).1 rfl, ?_⟩
  obtain ⟨impl, h1, h2⟩ :=
    (C8_build_gate_static_dispatch ⟨TargetArch.aarch64, true⟩).2 rfl (fun _ => rfl)
  simp only [guardImpls] at h2
  simp at h2
  subst h2
  exact h1

/-- C9: `DenormalGuard` is statically confined to the thread that created
it — under Rust's auto-trait rules its `PhantomData<*const ()>` marker
field makes the guard type neither `Send` (movable to another thread) nor
`Sync` (shareable with another thread), on both architectures; without
the marker field the remaining snapshot field alone would be both. -/
theorem C9_guard_neither_send_nor_sync :
    structIsSend denormalGuardFieldsX86 = false ∧
    structIsSync denormalGuardFieldsX86 = false ∧
    structIsSend denormalGuardFieldsAArch64 = false ∧
    structIsSync denormalGuardFieldsAArch64 = false ∧
    structIsSend [FieldType.u32] = true ∧
    structIsSync [FieldType.u32] = true ∧
    structIsSend [FieldType.u64] = true ∧
    structIsSync [FieldType.u64] = true := by
  decide

/-- C10: the crate's public surface is exactly the single function
`no_denormals` — the guard type and the raw register accessors are
private — and every public operation restores the control register, on
the normal path, on the unwind path, and on aarch64: no caller of the
public interface can leave the register in the mutated state. -/
theorem C10_private_guard_public_surface_restores :
    publicSurface = [CrateItem.noDenormalsFn] ∧
    (∀ (M T : Type) (func : X86State M → T × X86State M) (s : X86State M),
      ((no_denormals func s).2).mxcsr = s.mxcsr) ∧
    (∀ (M E T : Type) (func : X86State M → Except E T × X86State M) (s : X86State M),
      ((no_denormals_unwind func s).2).mxcsr = s.mxcsr) ∧
    (∀ (M T : Type) (func : AArch64State M → T × AArch64State M) (s : AArch64State M),
      ((no_denormals_aarch64 func s).2).fpcr = s.fpcr) :=
  ⟨rfl, fun _ _ func s => no_denormals_restores func s, fun _ _ _ _ _ => rfl,
   fun _ _ func s => no_denormals_aarch64_restores func s⟩

end NoDenormals
